import Mathlib

/-!
Verification of the `dispatch_queue` class in `examples/cpp/dispatch.cpp`.

Shallow embedding.  A task is opaque (a zero-argument callable whose body the
pool never inspects), so tasks are modelled by `Nat` identifiers and "executing
a task" is modelled by appending its identifier to an execution log.

Two complementary views of the code are embedded:

* Straight-line member functions (`dispatch_queue::dispatch`, the destructor)
  are embedded as pure functions that return the updated shared state together
  with the list of primitive events (`Event`) the function body performs, in
  statement order.  This captures lock discipline and signalling behaviour.

* The concurrent system (producers plus the worker threads running
  `dispatch_thread_handler`) is embedded as a small-step transition relation
  `Step` on `DQState`.  Every shared access in the worker loop happens inside
  a region protected by the single mutex `lock_`, so each critical section is
  one atomic step; `cv_.wait(lock, pred)` returns exactly when `pred` holds on
  wake (spurious wakeups are permitted by the C++ semantics, so a wake step is
  enabled whenever the predicate holds).  The destructor's unsynchronized
  write `quit_ = true` is its own step that may interleave anywhere.
-/

namespace DispatchCpp

/-- Program counter of one worker thread inside
`dispatch_queue::dispatch_thread_handler`:

* `wait`     — blocked in (or about to re-check) `cv_.wait(lock, pred)` with
  predicate `q_.size() || quit_`;
* `exec t`   — has popped task `t` off `q_` and released the lock, about to
  invoke `op()`;
* `afterRun` — `op()` returned, the lock has been re-acquired, about to
  evaluate the loop condition `while (!quit_)`;
* `stopped`  — the loop was exited and the thread function returned. -/
inductive WState where
  | wait : WState
  | exec (t : Nat) : WState
  | afterRun : WState
  | stopped : WState
deriving DecidableEq

/-- Shared state of one `dispatch_queue` object plus observation logs.

* `q`       — contents of `std::queue<fp_t> q_`, head of the list = front;
* `quit`    — the `quit_` flag;
* `workers` — program counter of each spawned worker thread (`threads_`);
* `execLog` — identifiers of tasks in the order their invocation `op()`
  started;
* `deqLog`  — identifiers of tasks in the order they were popped off `q_`;
* `pending` — tasks the producer code has yet to pass to `dispatch`. -/
structure DQState where
  q : List Nat
  quit : Bool
  workers : List WState
  execLog : List Nat
  deqLog : List Nat
  pending : List Nat
deriving DecidableEq

/-- Primitive events performed by the member-function bodies.
`setQuit b` records a write of `true` to `quit_`, with `b` recording whether
the writer holds `lock_` at that moment. -/
inductive Event where
  | lockAcquire : Event
  | lockRelease : Event
  | push (t : Nat) : Event
  | notifyAll : Event
  | notifyOne : Event
  | waitCV : Event
  | setQuit (underLock : Bool) : Event
  | joinThread (i : Nat) : Event
deriving DecidableEq

/-- Events on which the calling thread can block for an unbounded time
(condition-variable waits and thread joins). -/
def isBlockingEvent : Event → Bool
  | Event.waitCV => true
  | Event.joinThread _ => true
  | _ => false

/-- `void dispatch_queue::dispatch(const fp_t& op)` — the copy-in overload:
`unique_lock lock(lock_); q_.push(op); lock.unlock(); cv_.notify_all();`.
Returns the updated shared state and the events in statement order. -/
def dispatchCopy (s : DQState) (op : Nat) : DQState × List Event :=
  ({ s with q := s.q ++ [op] },
   [Event.lockAcquire, Event.push op, Event.lockRelease, Event.notifyAll])

/-- `void dispatch_queue::dispatch(fp_t&& op)` — the move-in overload:
`unique_lock lock(lock_); q_.push(std::move(op)); lock.unlock();
cv_.notify_all();`. -/
def dispatchMove (s : DQState) (op : Nat) : DQState × List Event :=
  ({ s with q := s.q ++ [op] },
   [Event.lockAcquire, Event.push op, Event.lockRelease, Event.notifyAll])

/-- Events performed by `dispatch_queue::~dispatch_queue()` for a pool with
`n` worker threads: `quit_ = true;` written without taking `lock_`, followed
by `threads_[i].join()` for `i = 0, …, n-1` in thread-creation order (every
spawned thread is joinable).  No condition-variable notification occurs. -/
def dtorTrace (n : Nat) : List Event :=
  Event.setQuit false :: (List.range n).map Event.joinThread

/-- State right after `dispatch_queue(name, n)` returns, with the producer
still intending to submit the tasks `p`: the queue is empty, `quit_` is
`false`, and `n` worker threads have been spawned, each entering
`dispatch_thread_handler` and heading for `cv_.wait`.  The constructor's
`name` argument is a diagnostic label with no behavioural effect and is
omitted. -/
def Init (p : List Nat) (n : Nat) : DQState :=
  { q := [], quit := false, workers := List.replicate n WState.wait,
    execLog := [], deqLog := [], pending := p }

/-- One atomic step of the concurrent system.  Worker steps identify the
acting thread by a decomposition `workers = pre ++ w :: post`.

* `dispatch` — a producer runs `dispatch`: under the lock the task is pushed
  on the back of `q_` (then the lock is released and `cv_.notify_all()` is
  called; in this model a wake step is enabled whenever the wait predicate
  holds, so the notification itself changes no state);
* `wakePop`  — a worker's `cv_.wait` returns (predicate `q_.size() || quit_`
  holds because the queue is non-empty); `if (q_.size())` is taken, the front
  task is popped and the lock released;
* `wakeQuit` — `cv_.wait` returns with the queue empty and `quit_` set; the
  `if` body is skipped and `while (!quit_)` fails, so the worker exits;
* `runTask`  — the worker invokes `op()` (logged), then re-acquires the lock;
* `loopBack` — `while (!quit_)` succeeds (`quit_` still `false`): back to the
  top of the loop and into `cv_.wait`;
* `exitLoop` — `while (!quit_)` fails after executing a task: the worker
  exits the loop, whatever `q_` now contains;
* `quitWrite` — the destructor performs `quit_ = true` (no lock held). -/
inductive Step : DQState → DQState → Prop where
  | dispatch (s : DQState) (t : Nat) (rest : List Nat) :
      s.pending = t :: rest →
      Step s { s with q := s.q ++ [t], pending := rest }
  | wakePop (s : DQState) (pre post : List WState) (t : Nat) (qrest : List Nat) :
      s.workers = pre ++ WState.wait :: post →
      s.q = t :: qrest →
      Step s { s with workers := pre ++ WState.exec t :: post,
                      q := qrest, deqLog := s.deqLog ++ [t] }
  | wakeQuit (s : DQState) (pre post : List WState) :
      s.workers = pre ++ WState.wait :: post →
      s.q = [] → s.quit = true →
      Step s { s with workers := pre ++ WState.stopped :: post }
  | runTask (s : DQState) (pre post : List WState) (t : Nat) :
      s.workers = pre ++ WState.exec t :: post →
      Step s { s with workers := pre ++ WState.afterRun :: post,
                      execLog := s.execLog ++ [t] }
  | loopBack (s : DQState) (pre post : List WState) :
      s.workers = pre ++ WState.afterRun :: post →
      s.quit = false →
      Step s { s with workers := pre ++ WState.wait :: post }
  | exitLoop (s : DQState) (pre post : List WState) :
      s.workers = pre ++ WState.afterRun :: post →
      s.quit = true →
      Step s { s with workers := pre ++ WState.stopped :: post }
  | quitWrite (s : DQState) :
      s.quit = false →
      Step s { s with quit := true }

/-- Finitely many interleaved steps. -/
abbrev Steps : DQState → DQState → Prop := Relation.ReflTransGen Step

/-- How many more tasks a worker in the given program-counter state can still
start executing after `quit_` has been set: one if it is about to pop or about
to invoke a popped task, none once it is at the loop check or has exited. -/
def potW : WState → Nat
  | WState.wait => 1
  | WState.exec _ => 1
  | WState.afterRun => 0
  | WState.stopped => 0

/-- Total remaining execution capacity of a worker set after `quit_` is set. -/
def pot (ws : List WState) : Nat := (ws.map potW).sum

/-- Number of workers currently holding a popped copy of task `t` (program
counter `exec t`): the task is owned by that worker between the pop and the
completion of `op()`. -/
def execingCount (t : Nat) : List WState → Nat
  | [] => 0
  | WState.exec u :: ws => (if u = t then 1 else 0) + execingCount t ws
  | WState.wait :: ws => execingCount t ws
  | WState.afterRun :: ws => execingCount t ws
  | WState.stopped :: ws => execingCount t ws

/-! ### Helper invariants over the step relation -/

/-- A single step never clears the `quit_` flag: no statement in the source
writes `false` to `quit_` after construction. -/
theorem step_quit_mono {s s' : DQState} (h : Step s s') (hq : s.quit = true) :
    s'.quit = true := by
  cases h <;> simp_all

/-- `quit_` stays set along any run. -/
theorem steps_quit_mono {s s' : DQState} (h : Steps s s') (hq : s.quit = true) :
    s'.quit = true := by
  induction h with
  | refl => exact hq
  | tail _ hstep ih => exact step_quit_mono hstep ih

/-- One step preserves the concatenation `deqLog ++ q_ ++ pending`:
`dispatch` pushes the head of `pending` on the back of `q_`, and a worker pops
the front of `q_` onto the back of `deqLog`. -/
theorem step_fifo {s s' : DQState} (h : Step s s') :
    s'.deqLog ++ (s'.q ++ s'.pending) = s.deqLog ++ (s.q ++ s.pending) := by
  cases h with
  | dispatch t rest hp => simp [hp]
  | wakePop pre post t qrest hw hq => simp [hq]
  | _ => simp

/-- Along any run from the post-construction state, the tasks dequeued so
far, the queue contents, and the not-yet-submitted tasks concatenate to the
original submission sequence `p`: dequeuing is in exact submission order. -/
theorem steps_fifo {p : List Nat} {n : Nat} {s : DQState}
    (h : Steps (Init p n) s) : s.deqLog ++ (s.q ++ s.pending) = p := by
  induction h with
  | refl => simp [Init]
  | tail _ hstep ih => rw [step_fifo hstep]; exact ih

/-- A stopped worker stays stopped and can only appear when `quit_` is set:
every exit path of the worker loop is guarded by `quit_` being `true`. -/
theorem step_stopped_quit {s s' : DQState} (h : Step s s')
    (ih : WState.stopped ∈ s.workers → s.quit = true)
    (hst : WState.stopped ∈ s'.workers) : s'.quit = true := by
  cases h with
  | dispatch t rest hp => exact ih hst
  | wakePop pre post t qrest hw hq =>
      simp only [hw, List.mem_append, List.mem_cons] at ih
      simp only [List.mem_append, List.mem_cons] at hst
      rcases hst with h1 | h1 | h1 <;> simp_all
  | wakeQuit pre post hw hq hquit => exact hquit
  | runTask pre post t hw =>
      simp only [hw, List.mem_append, List.mem_cons] at ih
      simp only [List.mem_append, List.mem_cons] at hst
      rcases hst with h1 | h1 | h1 <;> simp_all
  | loopBack pre post hw hq =>
      simp only [hw, List.mem_append, List.mem_cons] at ih
      simp only [List.mem_append, List.mem_cons] at hst
      rcases hst with h1 | h1 | h1 <;> simp_all
  | exitLoop pre post hw hquit => exact hquit
  | quitWrite hq => rfl

theorem pot_append (l₁ l₂ : List WState) : pot (l₁ ++ l₂) = pot l₁ + pot l₂ := by
  simp [pot]

theorem potW_le_one (w : WState) : potW w ≤ 1 := by
  cases w <;> simp [potW]

theorem pot_le_length (ws : List WState) : pot ws ≤ ws.length := by
  induction ws with
  | nil => simp [pot]
  | cons w ws ih =>
      simp only [pot, List.map_cons, List.sum_cons, List.length_cons]
      have := potW_le_one w
      simp only [pot] at ih
      omega

/-- Once `quit_` is set, each step leaves the execution-log length plus the
remaining execution capacity non-increasing: after observing `quit_` at the
loop check a worker exits instead of looping back, so it starts at most one
further task. -/
theorem step_post_quit_potential {s s' : DQState} (h : Step s s')
    (hq : s.quit = true) :
    s'.execLog.length + pot s'.workers ≤ s.execLog.length + pot s.workers := by
  cases h with
  | dispatch t rest hp => simp
  | wakePop pre post t qrest hw hq2 =>
      simp only [hw, pot_append]
      simp [pot, potW]
  | wakeQuit pre post hw hq2 hquit =>
      simp only [hw, pot_append]
      simp [pot, potW]
  | runTask pre post t hw =>
      simp only [hw, pot_append, List.length_append]
      simp only [pot, potW, List.map_cons, List.sum_cons, List.map_nil,
        List.sum_nil, List.length_cons, List.length_nil]
      omega
  | loopBack pre post hw hq2 => rw [hq2] at hq; exact Bool.noConfusion hq
  | exitLoop pre post hw hquit =>
      simp only [hw, pot_append]
      simp [pot, potW]
  | quitWrite hq2 => simp

/-- Once `quit_` is set, a whole run starts at most `pot s.workers` further
task executions. -/
theorem steps_post_quit_potential {s s' : DQState} (h : Steps s s')
    (hq : s.quit = true) :
    s'.execLog.length + pot s'.workers ≤ s.execLog.length + pot s.workers := by
  induction h with
  | refl => exact le_rfl
  | tail hpre hstep ih =>
      exact le_trans (step_post_quit_potential hstep (steps_quit_mono hpre hq)) ih

/-- With no worker threads, no step can change `workers` or `execLog`:
every worker-loop step needs a worker to act. -/
theorem step_no_workers {s s' : DQState} (h : Step s s')
    (hw0 : s.workers = []) :
    s'.workers = [] ∧ s'.execLog = s.execLog := by
  cases h with
  | dispatch t rest hp => exact ⟨hw0, rfl⟩
  | wakePop pre post t qrest hw hq => rw [hw0] at hw; simp at hw
  | wakeQuit pre post hw hq hquit => rw [hw0] at hw; simp at hw
  | runTask pre post t hw => rw [hw0] at hw; simp at hw
  | loopBack pre post hw hq => rw [hw0] at hw; simp at hw
  | exitLoop pre post hw hquit => rw [hw0] at hw; simp at hw
  | quitWrite hq => exact ⟨hw0, rfl⟩

/-- Along any run of a pool constructed with zero worker threads, the worker
set stays empty and no task is ever executed. -/
theorem steps_no_workers {p : List Nat} {s : DQState}
    (h : Steps (Init p 0) s) : s.workers = [] ∧ s.execLog = [] := by
  induction h with
  | refl => simp [Init]
  | tail _ hstep ih =>
      rcases ih with ⟨hw, he⟩
      rcases step_no_workers hstep hw with ⟨hw', he'⟩
      exact ⟨hw', he'.trans he⟩

theorem execingCount_append (t : Nat) (l₁ l₂ : List WState) :
    execingCount t (l₁ ++ l₂) = execingCount t l₁ + execingCount t l₂ := by
  induction l₁ with
  | nil => simp [execingCount]
  | cons w ws ih => cases w <;> (simp [execingCount, ih]; try omega)

/-- One step preserves the ownership ledger: the number of started executions
of task `t` plus the number of workers currently holding `t` equals the
number of times `t` was popped off the queue. -/
theorem step_exec_count {s s' : DQState} (h : Step s s') (t : Nat)
    (ih : s.execLog.count t + execingCount t s.workers = s.deqLog.count t) :
    s'.execLog.count t + execingCount t s'.workers = s'.deqLog.count t := by
  cases h with
  | dispatch t' rest hp => simpa using ih
  | wakePop pre post t' qrest hw hq =>
      rw [hw] at ih
      by_cases ht : t' = t
      · subst ht
        simp only [execingCount_append, execingCount, List.count_append,
          List.count_cons, List.count_nil] at ih ⊢
        simp at ih ⊢
        omega
      · simp only [execingCount_append, execingCount, List.count_append,
          List.count_cons, List.count_nil] at ih ⊢
        simp [ht, Ne.symm ht] at ih ⊢
        omega
  | wakeQuit pre post hw hq hquit =>
      rw [hw] at ih
      simp only [execingCount_append, execingCount] at ih ⊢
      omega
  | runTask pre post t' hw =>
      rw [hw] at ih
      by_cases ht : t' = t
      · subst ht
        simp only [execingCount_append, execingCount, List.count_append,
          List.count_cons, List.count_nil] at ih ⊢
        simp at ih ⊢
        omega
      · simp only [execingCount_append, execingCount, List.count_append,
          List.count_cons, List.count_nil] at ih ⊢
        simp [ht, Ne.symm ht] at ih ⊢
        omega
  | loopBack pre post hw hq =>
      rw [hw] at ih
      simp only [execingCount_append, execingCount] at ih ⊢
      omega
  | exitLoop pre post hw hquit =>
      rw [hw] at ih
      simp only [execingCount_append, execingCount] at ih ⊢
      omega
  | quitWrite hq => simpa using ih

/-- Run-level ownership ledger from the post-construction state. -/
theorem steps_exec_count {p : List Nat} {n : Nat} {s : DQState}
    (h : Steps (Init p n) s) (t : Nat) :
    s.execLog.count t + execingCount t s.workers = s.deqLog.count t := by
  induction h with
  | refl =>
      have hrep : execingCount t (List.replicate n WState.wait) = 0 := by
        induction n with
        | zero => simp [execingCount]
        | succ m ihm => simpa [List.replicate_succ, execingCount] using ihm
      simp [Init, hrep]
  | tail _ hstep ih => exact step_exec_count hstep t ih

/-- Along any run, a task identifier starts executing at most as often as it
was popped, and it is popped at most as often as it occurred in the submission
sequence. -/
theorem steps_count_le {p : List Nat} {n : Nat} {s : DQState}
    (h : Steps (Init p n) s) (t : Nat) :
    s.execLog.count t ≤ s.deqLog.count t ∧ s.deqLog.count t ≤ p.count t := by
  constructor
  · have := steps_exec_count h t
    omega
  · have hf := steps_fifo h
    have : (s.deqLog ++ (s.q ++ s.pending)).count t = p.count t := by rw [hf]
    simp only [List.count_append] at this
    omega

/-! ### Concrete interleavings

`run_two_tasks_one_worker`: the `main`-style scenario with one worker, two
submitted tasks, and the destructor's `quit_ = true` happening before the
worker is first scheduled.  The worker's `cv_.wait` predicate is already true
on entry, the worker pops and runs task `0`, re-acquires the lock, finds
`while (!quit_)` false and exits — leaving task `1` in `q_` forever. -/

theorem run_two_tasks_one_worker :
    Steps (Init [0, 1] 1)
      { q := [1], quit := true, workers := [WState.stopped],
        execLog := [0], deqLog := [0], pending := [] } := by
  have h1 : Step (Init [0, 1] 1)
      { q := [0], quit := false, workers := [WState.wait],
        execLog := [], deqLog := [], pending := [1] } :=
    Step.dispatch _ 0 [1] rfl
  have h2 : Step
      { q := [0], quit := false, workers := [WState.wait],
        execLog := [], deqLog := [], pending := [1] }
      { q := [0, 1], quit := false, workers := [WState.wait],
        execLog := [], deqLog := [], pending := ([] : List Nat) } :=
    Step.dispatch _ 1 [] rfl
  have h3 : Step
      { q := [0, 1], quit := false, workers := [WState.wait],
        execLog := [], deqLog := [], pending := ([] : List Nat) }
      { q := [0, 1], quit := true, workers := [WState.wait],
        execLog := [], deqLog := [], pending := ([] : List Nat) } :=
    Step.quitWrite _ rfl
  have h4 : Step
      { q := [0, 1], quit := true, workers := [WState.wait],
        execLog := [], deqLog := [], pending := ([] : List Nat) }
      { q := [1], quit := true, workers := [WState.exec 0],
        execLog := [], deqLog := [0], pending := ([] : List Nat) } :=
    Step.wakePop _ [] [] 0 [1] rfl rfl
  have h5 : Step
      { q := [1], quit := true, workers := [WState.exec 0],
        execLog := [], deqLog := [0], pending := ([] : List Nat) }
      { q := [1], quit := true, workers := [WState.afterRun],
        execLog := [0], deqLog := [0], pending := ([] : List Nat) } :=
    Step.runTask _ [] [] 0 rfl
  have h6 : Step
      { q := [1], quit := true, workers := [WState.afterRun],
        execLog := [0], deqLog := [0], pending := ([] : List Nat) }
      { q := [1], quit := true, workers := [WState.stopped],
        execLog := [0], deqLog := [0], pending := ([] : List Nat) } :=
    Step.exitLoop _ [] [] rfl rfl
  exact Relation.ReflTransGen.head h1 (Relation.ReflTransGen.head h2
    (Relation.ReflTransGen.head h3 (Relation.ReflTransGen.head h4
      (Relation.ReflTransGen.head h5 (Relation.ReflTransGen.head h6
        Relation.ReflTransGen.refl)))))

/-- Two workers, two tasks: worker 0 pops task `0` and worker 1 pops task `1`;
worker 1 invokes its task before worker 0 does (both pops happened, both
workers are outside the lock, so either invocation order is possible).  The
dequeue log is `[0, 1]` but the execution log is `[1, 0]`. -/
theorem run_two_workers_swap :
    Steps (Init [0, 1] 2)
      { q := [], quit := false, workers := [WState.afterRun, WState.afterRun],
        execLog := [1, 0], deqLog := [0, 1], pending := [] } := by
  have h1 : Step (Init [0, 1] 2)
      { q := [0], quit := false, workers := [WState.wait, WState.wait],
        execLog := [], deqLog := [], pending := [1] } :=
    Step.dispatch _ 0 [1] rfl
  have h2 : Step
      { q := [0], quit := false, workers := [WState.wait, WState.wait],
        execLog := [], deqLog := [], pending := [1] }
      { q := [0, 1], quit := false, workers := [WState.wait, WState.wait],
        execLog := [], deqLog := [], pending := ([] : List Nat) } :=
    Step.dispatch _ 1 [] rfl
  have h3 : Step
      { q := [0, 1], quit := false, workers := [WState.wait, WState.wait],
        execLog := [], deqLog := [], pending := ([] : List Nat) }
      { q := [1], quit := false, workers := [WState.exec 0, WState.wait],
        execLog := [], deqLog := [0], pending := ([] : List Nat) } :=
    Step.wakePop _ [] [WState.wait] 0 [1] rfl rfl
  have h4 : Step
      { q := [1], quit := false, workers := [WState.exec 0, WState.wait],
        execLog := [], deqLog := [0], pending := ([] : List Nat) }
      { q := [], quit := false, workers := [WState.exec 0, WState.exec 1],
        execLog := [], deqLog := [0, 1], pending := ([] : List Nat) } :=
    Step.wakePop _ [WState.exec 0] [] 1 [] rfl rfl
  have h5 : Step
      { q := [], quit := false, workers := [WState.exec 0, WState.exec 1],
        execLog := [], deqLog := [0, 1], pending := ([] : List Nat) }
      { q := [], quit := false, workers := [WState.exec 0, WState.afterRun],
        execLog := [1], deqLog := [0, 1], pending := ([] : List Nat) } :=
    Step.runTask _ [WState.exec 0] [] 1 rfl
  have h6 : Step
      { q := [], quit := false, workers := [WState.exec 0, WState.afterRun],
        execLog := [1], deqLog := [0, 1], pending := ([] : List Nat) }
      { q := [], quit := false, workers := [WState.afterRun, WState.afterRun],
        execLog := [1, 0], deqLog := [0, 1], pending := ([] : List Nat) } :=
    Step.runTask _ [] [WState.afterRun] 0 rfl
  exact Relation.ReflTransGen.head h1 (Relation.ReflTransGen.head h2
    (Relation.ReflTransGen.head h3 (Relation.ReflTransGen.head h4
      (Relation.ReflTransGen.head h5 (Relation.ReflTransGen.head h6
        Relation.ReflTransGen.refl)))))

/-! ### Claim C1 -/

/-- Claim C1, counterexample: two tasks are submitted to a one-worker pool and
shutdown is requested immediately (`quit_ = true` before the worker is
scheduled).  The system reaches a state in which every worker has stopped —
so the destructor's joins all return and shutdown completes — yet task `1`
never executed: it is still sitting in `q_`.  Not all M tasks complete before
shutdown returns. -/
theorem shutdown_leaves_task_unexecuted :
    Steps (Init [0, 1] 1)
      { q := [1], quit := true, workers := [WState.stopped],
        execLog := [0], deqLog := [0], pending := [] } ∧
    (∀ w ∈ ([WState.stopped] : List WState), w = WState.stopped) ∧
    (1 : Nat) ∉ ([0] : List Nat) :=
  ⟨run_two_tasks_one_worker, by decide, by decide⟩

/-- Claim C1, amended: there is no drain-before-exit guarantee.  A worker that
pops and executes a task re-checks `while (!quit_)` and exits as soon as the
quit flag is observed, even with tasks still queued; so once `quit_` is set,
at most one further task per worker begins execution — at most `worker_count`
additional executions in total — and submitted tasks beyond that may remain
unexecuted when shutdown returns. -/
theorem post_quit_executions_bounded_by_workers (s s' : DQState)
    (hq : s.quit = true) (h : Steps s s') :
    s'.execLog.length ≤ s.execLog.length + s.workers.length := by
  have h1 := steps_post_quit_potential h hq
  have h2 := pot_le_length s.workers
  omega

/-- Claim C1, witness: a one-worker pool with `quit_` already set and one task
queued executes that one task (the bound `≤ 0 + 1` is attained). -/
theorem post_quit_executions_bounded_by_workers_witness :
    ({ q := [0], quit := true, workers := [WState.wait], execLog := [],
       deqLog := [], pending := [] } : DQState).quit = true ∧
    Steps
      { q := [0], quit := true, workers := [WState.wait], execLog := [],
        deqLog := [], pending := [] }
      { q := [], quit := true, workers := [WState.stopped], execLog := [0],
        deqLog := [0], pending := [] } ∧
    ([0] : List Nat).length ≤ ([] : List Nat).length + [WState.wait].length := by
  have h4 : Step
      ({ q := [0], quit := true, workers := [WState.wait], execLog := [],
         deqLog := [], pending := [] } : DQState)
      { q := [], quit := true, workers := [WState.exec 0], execLog := [],
        deqLog := [0], pending := ([] : List Nat) } :=
    Step.wakePop _ [] [] 0 [] rfl rfl
  have h5 : Step
      ({ q := [], quit := true, workers := [WState.exec 0], execLog := [],
         deqLog := [0], pending := [] } : DQState)
      { q := [], quit := true, workers := [WState.afterRun], execLog := [0],
        deqLog := [0], pending := ([] : List Nat) } :=
    Step.runTask _ [] [] 0 rfl
  have h6 : Step
      ({ q := [], quit := true, workers := [WState.afterRun], execLog := [0],
         deqLog := [0], pending := [] } : DQState)
      { q := [], quit := true, workers := [WState.stopped], execLog := [0],
        deqLog := [0], pending := ([] : List Nat) } :=
    Step.exitLoop _ [] [] rfl rfl
  have hchain : Steps
      { q := [0], quit := true, workers := [WState.wait], execLog := [],
        deqLog := [], pending := [] }
      { q := [], quit := true, workers := [WState.stopped], execLog := [0],
        deqLog := [0], pending := [] } :=
    Relation.ReflTransGen.head h4 (Relation.ReflTransGen.head h5
      (Relation.ReflTransGen.head h6 Relation.ReflTransGen.refl))
  exact ⟨rfl, hchain, post_quit_executions_bounded_by_workers _ _ rfl hchain⟩

/-! ### Claim C2 -/

/-- Claim C2, counterexample: the worker of a one-worker pool exits its loop
(reaches `stopped`, a reachable state of the system) while the queue still
holds task `1` — so a worker can exit in a state where the queue is
non-empty.  The exit happened at `while (!quit_)` right after executing task
`0`, not "upon waking with the queue empty". -/
theorem worker_exits_with_nonempty_queue :
    Steps (Init [0, 1] 1)
      { q := [1], quit := true, workers := [WState.stopped],
        execLog := [0], deqLog := [0], pending := [] } ∧
    WState.stopped ∈ ([WState.stopped] : List WState) ∧
    ([1] : List Nat) ≠ [] :=
  ⟨run_two_tasks_one_worker, by decide, by decide⟩

/-- Claim C2, amended: a worker exits its loop only in a state where the quit
flag is set (every exit path — waking to an empty queue, or the post-iteration
`while (!quit_)` check after executing a task — is guarded by `quit_`); but it
may exit with the queue non-empty. -/
theorem worker_stopped_implies_quit (p : List Nat) (n : Nat) (s : DQState)
    (h : Steps (Init p n) s) (hst : WState.stopped ∈ s.workers) :
    s.quit = true := by
  revert hst
  induction h with
  | refl =>
      intro hst
      exact absurd (List.eq_of_mem_replicate hst) (fun hne => WState.noConfusion hne)
  | tail _ hstep ih =>
      intro hst
      exact step_stopped_quit hstep ih hst

/-- Claim C2, witness: a one-worker pool with no tasks, after the destructor's
quit write, reaches a stopped worker; the theorem confirms `quit_` is set
there. -/
theorem worker_stopped_implies_quit_witness :
    Steps (Init [] 1)
      { q := [], quit := true, workers := [WState.stopped], execLog := [],
        deqLog := [], pending := [] } ∧
    WState.stopped ∈ ([WState.stopped] : List WState) ∧
    ({ q := [], quit := true, workers := [WState.stopped], execLog := [],
       deqLog := [], pending := [] } : DQState).quit = true := by
  have h1 : Step (Init [] 1)
      { q := [], quit := true, workers := [WState.wait], execLog := [],
        deqLog := [], pending := ([] : List Nat) } :=
    Step.quitWrite _ rfl
  have h2 : Step
      ({ q := [], quit := true, workers := [WState.wait], execLog := [],
         deqLog := [], pending := [] } : DQState)
      { q := [], quit := true, workers := [WState.stopped], execLog := [],
        deqLog := [], pending := ([] : List Nat) } :=
    Step.wakeQuit _ [] [] rfl rfl rfl
  have hchain : Steps (Init [] 1)
      { q := [], quit := true, workers := [WState.stopped], execLog := [],
        deqLog := [], pending := [] } :=
    Relation.ReflTransGen.head h1
      (Relation.ReflTransGen.head h2 Relation.ReflTransGen.refl)
  exact ⟨hchain, by decide,
    worker_stopped_implies_quit [] 1 _ hchain (by decide)⟩

/-! ### Claim C3 -/

/-- Claim C3: the destructor sets the quit flag and joins every worker in
thread-creation order, but — contrary to the claim — it performs NO wake at
all: neither `notify_all` nor `notify_one` occurs anywhere in its body, for
any worker count.  A worker parked inside `cv_.wait` is therefore never
signalled by shutdown (it can only be woken by a later `dispatch` or a
spurious wakeup), and the subsequent blocking `join` can wait forever. -/
theorem destructor_emits_no_wake :
    (∀ n : Nat, Event.notifyAll ∉ dtorTrace n ∧ Event.notifyOne ∉ dtorTrace n) ∧
    dtorTrace 4 = [Event.setQuit false, Event.joinThread 0, Event.joinThread 1,
      Event.joinThread 2, Event.joinThread 3] := by
  constructor
  · intro n
    constructor
    · simp [dtorTrace]
    · simp [dtorTrace]
  · decide

/-! ### Claim C4 -/

/-- Claim C4: contrary to the claim, the destructor's write `quit_ = true` is
performed WITHOUT holding `lock_` (the destructor body never acquires the
mutex), while the workers read `quit_` under the lock — an unsynchronized
flag write racing with locked reads. -/
theorem destructor_quit_write_unlocked :
    (∀ n : Nat, Event.setQuit false ∈ dtorTrace n) ∧
    (∀ n : Nat, Event.setQuit true ∉ dtorTrace n) := by
  constructor
  · intro n; simp [dtorTrace]
  · intro n; simp [dtorTrace]

/-! ### Claim C5 -/

/-- Claim C5: `dispatch` acquires the lock, appends the task to the tail of
the queue, releases the lock, and only then broadcasts `notify_all` (never
`notify_one`); its body contains no blocking event (no condition-variable
wait, no join), so it returns without waiting on task completion, and the
rest of the state (`quit_`, workers, logs) is untouched. -/
theorem dispatch_contract (s : DQState) (op : Nat) :
    (dispatchCopy s op).1 = { s with q := s.q ++ [op] } ∧
    (dispatchCopy s op).2 =
      [Event.lockAcquire, Event.push op, Event.lockRelease, Event.notifyAll] ∧
    (dispatchCopy s op).2.filter isBlockingEvent = [] ∧
    Event.notifyOne ∉ (dispatchCopy s op).2 ∧
    Event.notifyAll ∈ (dispatchCopy s op).2 := by
  refine ⟨rfl, rfl, rfl, ?_, ?_⟩
  · simp [dispatchCopy]
  · simp [dispatchCopy]

/-! ### Claim C6 -/

/-- Claim C6, counterexample: with two workers and submissions `[0, 1]`, the
system reaches a state whose dequeue log is `[0, 1]` (submission order) but
whose begin-execution log is `[1, 0]`: worker 1 invoked its popped task before
worker 0 did, both being outside the lock.  Tasks do NOT necessarily begin
execution in submission order. -/
theorem execution_order_differs_from_submission :
    Steps (Init [0, 1] 2)
      { q := [], quit := false, workers := [WState.afterRun, WState.afterRun],
        execLog := [1, 0], deqLog := [0, 1], pending := [] } ∧
    ([1, 0] : List Nat) ≠ [0, 1] :=
  ⟨run_two_workers_swap, by decide⟩

/-- Claim C6, amended: tasks are DEQUEUED in the exact order they were
enqueued — along any run, the dequeue log concatenated with the current queue
and the not-yet-submitted tasks equals the submission sequence, so the
dequeue log is always a prefix of the submission order (no reordering, no
merging).  Begin-execution order, however, may differ from dequeue order when
more than one worker is running. -/
theorem dequeue_order_fifo (p : List Nat) (n : Nat) (s : DQState)
    (h : Steps (Init p n) s) : s.deqLog ++ (s.q ++ s.pending) = p :=
  steps_fifo h

/-- Claim C6, witness: after submitting `[0, 1]` and one pop, the dequeue log
`[0]`, queue `[1]` and empty pending reassemble the submission sequence. -/
theorem dequeue_order_fifo_witness :
    Steps (Init [0, 1] 1)
      { q := [1], quit := false, workers := [WState.exec 0], execLog := [],
        deqLog := [0], pending := [] } ∧
    ([0] : List Nat) ++ ([1] ++ ([] : List Nat)) = [0, 1] := by
  have h1 : Step (Init [0, 1] 1)
      { q := [0], quit := false, workers := [WState.wait], execLog := [],
        deqLog := [], pending := [1] } :=
    Step.dispatch _ 0 [1] rfl
  have h2 : Step
      ({ q := [0], quit := false, workers := [WState.wait], execLog := [],
         deqLog := [], pending := [1] } : DQState)
      { q := [0, 1], quit := false, workers := [WState.wait], execLog := [],
        deqLog := [], pending := ([] : List Nat) } :=
    Step.dispatch _ 1 [] rfl
  have h3 : Step
      ({ q := [0, 1], quit := false, workers := [WState.wait], execLog := [],
         deqLog := [], pending := [] } : DQState)
      { q := [1], quit := false, workers := [WState.exec 0], execLog := [],
        deqLog := [0], pending := ([] : List Nat) } :=
    Step.wakePop _ [] [] 0 [1] rfl rfl
  have hchain : Steps (Init [0, 1] 1)
      { q := [1], quit := false, workers := [WState.exec 0], execLog := [],
        deqLog := [0], pending := [] } :=
    Relation.ReflTransGen.head h1 (Relation.ReflTransGen.head h2
      (Relation.ReflTransGen.head h3 Relation.ReflTransGen.refl))
  exact ⟨hchain, dequeue_order_fifo [0, 1] 1 _ hchain⟩

/-! ### Claim C7 -/

/-- Claim C7, counterexample: task `1` is submitted, the run completes (the
only worker has exited its loop, so the destructor's join returns and the
process ends) and task `1` was executed ZERO times — "each task executes
exactly once across all interleavings" fails in the never-zero direction. -/
theorem task_executed_zero_times :
    Steps (Init [0, 1] 1)
      { q := [1], quit := true, workers := [WState.stopped],
        execLog := [0], deqLog := [0], pending := [] } ∧
    (∀ w ∈ ([WState.stopped] : List WState), w = WState.stopped) ∧
    ([0] : List Nat).count 1 = 0 :=
  ⟨run_two_tasks_one_worker, by decide, by decide⟩

/-- Claim C7, amended: each submitted task is executed AT MOST once — along
any run from a duplicate-free submission sequence the execution log stays
duplicate-free (a task, once popped, is owned by exactly one worker and is
logged exactly once) — but "never zero times" does not hold: a task can be
abandoned in the queue when shutdown intervenes. -/
theorem tasks_executed_at_most_once (p : List Nat) (n : Nat) (s : DQState)
    (h : Steps (Init p n) s) (hnd : p.Nodup) : s.execLog.Nodup := by
  rw [List.nodup_iff_count_le_one] at hnd ⊢
  intro t
  have h1 := (steps_count_le h t).1
  have h2 := (steps_count_le h t).2
  exact le_trans h1 (le_trans h2 (hnd t))

/-- Claim C7, witness: the two-task one-worker run executes task `0` once and
task `1` not at all; its execution log `[0]` is duplicate-free. -/
theorem tasks_executed_at_most_once_witness :
    Steps (Init [0, 1] 1)
      { q := [1], quit := true, workers := [WState.stopped],
        execLog := [0], deqLog := [0], pending := [] } ∧
    ([0, 1] : List Nat).Nodup ∧ ([0] : List Nat).Nodup :=
  ⟨run_two_tasks_one_worker, by decide,
    tasks_executed_at_most_once [0, 1] 1 _ run_two_tasks_one_worker (by decide)⟩

/-! ### Claim C8 -/

/-- Claim C8: the copy-in and move-in `dispatch` overloads are semantically
equivalent — for every shared state and every task they produce the same
resulting state (same queue contents) and the same event trace (same lock
discipline and the same `notify_all` wake). -/
theorem dispatch_copy_move_equivalent :
    ∀ (s : DQState) (op : Nat), dispatchCopy s op = dispatchMove s op :=
  fun _ _ => rfl

/-! ### Claim C9 -/

/-- Claim C9: a pool constructed with `worker_count = 0` spawns no worker
threads; along any run its worker set stays empty and its execution log stays
empty — no submitted task is ever executed — while `dispatch` still appends
every submission to the queue; neither construction nor submission signals
any error (both are total, error-free operations in the source). -/
theorem zero_workers_silent_starvation (p : List Nat) (s : DQState)
    (h : Steps (Init p 0) s) :
    s.workers = [] ∧ s.execLog = [] ∧
    ∀ op : Nat, (dispatchCopy s op).1.q = s.q ++ [op] ∧
      (dispatchCopy s op).1.execLog = s.execLog ∧
      (dispatchCopy s op).1.workers = [] := by
  rcases steps_no_workers h with ⟨hw, he⟩
  exact ⟨hw, he, fun op => ⟨rfl, rfl, hw⟩⟩

/-- Claim C9, witness: a zero-worker pool accepts the submission of task `5`
(it is enqueued) and has executed nothing. -/
theorem zero_workers_silent_starvation_witness :
    Steps (Init [5] 0)
      { q := [5], quit := false, workers := [], execLog := [],
        deqLog := [], pending := [] } ∧
    ({ q := [5], quit := false, workers := [], execLog := [],
       deqLog := [], pending := [] } : DQState).workers = [] ∧
    (dispatchCopy
      { q := [5], quit := false, workers := [], execLog := [],
        deqLog := [], pending := ([] : List Nat) } 7).1.q = [5] ++ [7] := by
  have hchain : Steps (Init [5] 0)
      { q := [5], quit := false, workers := [], execLog := [],
        deqLog := [], pending := [] } :=
    Relation.ReflTransGen.head (Step.dispatch _ 5 [] rfl)
      Relation.ReflTransGen.refl
  exact ⟨hchain, (zero_workers_silent_starvation [5] _ hchain).1,
    ((zero_workers_silent_starvation [5] _ hchain).2.2 7).1⟩

/-! ### Claim C10 -/

/-- Claim C10: both `dispatch` overloads append the task unconditionally —
their result does not depend on the quit flag (the body never reads `quit_`),
so even with `quit_` already set a submission is accepted into the queue, and
the producer's `dispatch` step of the transition system is enabled regardless
of `quit_`.  No rejection, drop, or error exists on any path. -/
theorem dispatch_ignores_quit (s : DQState) (op t : Nat) (rest : List Nat)
    (hq : s.quit = true) (hp : s.pending = t :: rest) :
    (dispatchCopy s op).1.q = s.q ++ [op] ∧
    (dispatchMove s op).1.q = s.q ++ [op] ∧
    (dispatchCopy s op).1.quit = true ∧
    (∀ b : Bool, (dispatchCopy { s with quit := b } op).1.q = s.q ++ [op]) ∧
    Step s { s with q := s.q ++ [t], pending := rest } :=
  ⟨rfl, rfl, hq, fun _ => rfl, Step.dispatch s t rest hp⟩

/-- Claim C10, witness: a state with `quit_` set and task `5` pending accepts
the submission of task `7`. -/
theorem dispatch_ignores_quit_witness :
    ({ q := [], quit := true, workers := [], execLog := [], deqLog := [],
       pending := [5] } : DQState).quit = true ∧
    ({ q := [], quit := true, workers := [], execLog := [], deqLog := [],
       pending := [5] } : DQState).pending = 5 :: [] ∧
    (dispatchCopy
      { q := [], quit := true, workers := [], execLog := [], deqLog := [],
        pending := [5] } 7).1.q = ([] : List Nat) ++ [7] :=
  ⟨rfl, rfl, (dispatch_ignores_quit _ 7 5 [] rfl rfl).1⟩

end DispatchCpp
